import Mathlib

/-!
Verification development for the realtime middle-tier relay
(`app/backend/rtmt.py`).  The relay mediates JSON text frames between a
voice client and an upstream realtime endpoint, intercepting a subset of
message types to implement server-side tool invocation and policy
enforcement.

The embedding below is a shallow embedding of the Python source:

* JSON values are modelled by `JValue` (JSON numbers as rationals, which
  numeric literals of the protocol denote exactly; the relay never does
  arithmetic on them).
* A wire frame is modelled by its parse outcome (`WireFrame`): the relay
  only ever inspects a text frame through `json.loads`, so a frame is
  either `malformed` (loads raises `JSONDecodeError`) or `parsed v`.
  The JSON text codec applied to strings nested *inside* an already
  parsed message (the `arguments` payload of a function call) is
  abstracted as an explicit `loads` parameter.
* Python exceptions are modelled with `Except PyError`; a processing run
  carries its state updates and socket sends alongside the outcome,
  because in Python an exception does not roll back sends that already
  happened or dictionary mutations already performed.
* Python `dict`s (insertion ordered, string keys for JSON objects) are
  association lists; `d[k] = v` keeps the position of an existing key and
  appends a fresh one; indexing a missing key raises `KeyError`;
  indexing a non-dict raises `TypeError`; membership tests and indexing
  with an unhashable key (list or dict) raise `TypeError`.
-/

/-- Python exceptions that the relay code can raise while processing a
frame: `json.JSONDecodeError` from `json.loads`, `KeyError` from indexing
a dict with a missing key, `TypeError` from indexing or hashing the wrong
kind of value, `IndexError` from `list.pop` with an out-of-range index,
and an arbitrary exception escaping a tool handler.  `fuelExhausted` is an
artifact of the fuel-based loop embedding and is unreachable for the fuel
bounds used. -/
inductive PyError where
  | jsonDecodeError
  | keyError
  | typeError
  | indexError
  | handlerError (s : String)
  | fuelExhausted
deriving Repr, DecidableEq

/-- JSON values as the relay observes them after `json.loads`.  Numbers are
rationals (exact denotations of JSON numeric literals). -/
inductive JValue where
  | jnull
  | jbool (b : Bool)
  | jnum (q : Rat)
  | jstr (s : String)
  | jarr (xs : List JValue)
  | jobj (fields : List (String × JValue))
deriving Repr

/-- First value bound to a key in a JSON object / Python dict (keys of a
parsed JSON object are unique, lookup takes the first match). -/
def lookupField : List (String × JValue) → String → Option JValue
  | [], _ => none
  | (k2, v) :: fs, k => if k2 = k then some v else lookupField fs k

/-- Python `d[k] = v` on a string-keyed dict: replaces the value in place
when the key exists (keeping its position), appends otherwise. -/
def setField : List (String × JValue) → String → JValue → List (String × JValue)
  | [], k, v => [(k, v)]
  | (k2, w) :: fs, k, v =>
    if k2 = k then (k, v) :: fs else (k2, w) :: setField fs k v

/-- Python `message[k]` on an arbitrary value: `TypeError` when the value
is not a dict, `KeyError` when the key is missing. -/
def pyIndex : JValue → String → Except PyError JValue
  | .jobj fs, k =>
    match lookupField fs k with
    | some v => .ok v
    | none => .error .keyError
  | _, _ => .error .typeError

/-- Hashability of a JSON value used as a Python dict key: lists and dicts
are unhashable, everything else hashes. -/
def isHashable : JValue → Bool
  | .jarr _ => false
  | .jobj _ => false
  | _ => true

/-- Equality of hashable JSON values as Python dict keys.  Mirrors Python
`==` on the hashable JSON types, including the numeric equality between
booleans and numbers (`True == 1`). -/
def hkeyEq : JValue → JValue → Bool
  | .jnull, .jnull => true
  | .jbool a, .jbool b => a = b
  | .jnum a, .jnum b => a = b
  | .jstr a, .jstr b => a = b
  | .jbool a, .jnum b => (if a then (1 : Rat) else 0) = b
  | .jnum a, .jbool b => a = (if b then (1 : Rat) else 0)
  | _, _ => false

/-- Escaping of one character inside a JSON string literal (`json.dumps`). -/
def jsonQuoteChar (c : Char) : String :=
  if c = '\"' then "\\\"" else if c = '\\' then "\\\\" else String.singleton c

/-- A JSON string literal as produced by `json.dumps`. -/
def jsonQuote (s : String) : String :=
  "\"" ++ String.join (s.toList.map jsonQuoteChar) ++ "\""

mutual

/-- Model of Python `json.dumps` on a JSON value (default separators). -/
def jsonDumps : JValue → String
  | .jnull => "null"
  | .jbool b => if b then "true" else "false"
  | .jnum q => if q.den = 1 then toString q.num else toString q
  | .jstr s => jsonQuote s
  | .jarr xs => "[" ++ jsonDumpsArr xs ++ "]"
  | .jobj fs => "\x7b" ++ jsonDumpsObj fs ++ "\x7d"

/-- Comma-separated serialization of a JSON array's elements. -/
def jsonDumpsArr : List JValue → String
  | [] => ""
  | [x] => jsonDumps x
  | x :: y :: xs => jsonDumps x ++ ", " ++ jsonDumpsArr (y :: xs)

/-- Comma-separated serialization of a JSON object's entries. -/
def jsonDumpsObj : List (String × JValue) → String
  | [] => ""
  | [(k, v)] => jsonQuote k ++ ": " ++ jsonDumps v
  | (k, v) :: y :: fs => jsonQuote k ++ ": " ++ jsonDumps v ++ ", " ++ jsonDumpsObj (y :: fs)

end

/-- Direction of a tool result (rtmt.py, `ToolResultDirection`). -/
inductive ToolResultDirection where
  | TO_SERVER
  | TO_CLIENT
deriving Repr, DecidableEq

/-- Result of a tool handler (rtmt.py, `ToolResult`).  The Python class
annotates `text` as `str` but at runtime holds whatever the handler
returned: `None`, a string, or a structured value (`ragtools.py` returns a
dict for `report_grounding`), so the field is a `JValue`. -/
structure ToolResult where
  text : JValue
  destination : ToolResultDirection

/-- rtmt.py `ToolResult.to_text`: empty string for `None`, the string
itself for a `str`, `json.dumps` of the payload otherwise. -/
def ToolResult.to_text (r : ToolResult) : String :=
  match r.text with
  | .jnull => ""
  | .jstr s => s
  | v => jsonDumps v

/-- A registered tool (rtmt.py, `Tool`): a schema advertised to the
backend and an async handler.  The handler is modelled as a function that
may raise; `json.loads` of the textual `arguments` payload feeds it. -/
structure Tool where
  schema : JValue
  target : JValue → Except PyError ToolResult

/-- A pending tool call (rtmt.py, `RTToolCall`): the call id and the id of
the conversation item preceding the call. -/
structure RTToolCall where
  tool_call_id : JValue
  previous_id : JValue
deriving Repr

/-- Contents of the `_tools_pending` dictionary: call id (a hashable JSON
value in practice a string) mapped to the recorded `RTToolCall`. -/
abbrev PendingMap := List (JValue × RTToolCall)

/-- Lookup in `_tools_pending` by Python key equality (first match). -/
def lookupPending : PendingMap → JValue → Option RTToolCall
  | [], _ => none
  | (k, tc) :: ps, cid => if hkeyEq k cid then some tc else lookupPending ps cid

/-- Python `cid in d` on the pending dict: `TypeError` on an unhashable
key, otherwise a membership test. -/
def pendingContains (p : PendingMap) (cid : JValue) : Except PyError Bool :=
  if isHashable cid then .ok (lookupPending p cid).isSome else .error .typeError

/-- Python `d[cid]` on the pending dict: `TypeError` on an unhashable key,
`KeyError` when absent. -/
def pendingGet (p : PendingMap) (cid : JValue) : Except PyError RTToolCall :=
  if isHashable cid then
    match lookupPending p cid with
    | some tc => .ok tc
    | none => .error .keyError
  else .error .typeError

/-- Insertion of a fresh key into the pending dict (insertion order). -/
def pendingInsert (p : PendingMap) (cid : JValue) (tc : RTToolCall) : PendingMap :=
  p ++ [(cid, tc)]

/-- Python `self.tools[nameV]` on the string-keyed registry: `TypeError`
on an unhashable name, `KeyError` when the name is not registered (a
hashable non-string never equals a string key). -/
def toolsLookup : List (String × Tool) → JValue → Except PyError Tool
  | ts, .jstr s =>
    match ts.find? (fun kt => kt.1 = s) with
    | some kt => .ok kt.2
    | none => .error .keyError
  | _, .jarr _ => .error .typeError
  | _, .jobj _ => .error .typeError
  | _, _ => .error .keyError

/-- The relay's configuration as read by the two transformer functions
(rtmt.py, `RTMiddleTier`): the server-enforced session policy fields and
the tool registry.  Connection and authentication fields (`endpoint`,
`deployment`, `key`, token provider) belong to the upstream connector,
which is outside the transformer and not needed by any claim. -/
structure RTMiddleTier where
  system_message : Option String
  temperature : Option Rat
  top_p : Option Rat
  presence_penalty : Option Rat
  frequency_penalty : Option Rat
  max_tokens : Option Int
  disable_audio : Option Bool
  voice_choice : Option String
  tools : List (String × Tool)

/-- A text frame on either socket, identified by its `json.loads`
outcome: the relay never inspects a frame except through `json.loads`. -/
inductive WireFrame where
  | malformed
  | parsed (v : JValue)

/-- What a transformer returns for a frame it forwards: either the
original raw frame unchanged (`updated_message = msg.data`) or a
re-serialized message (`json.dumps` of the rewritten value). -/
inductive OutFrame where
  | original
  | reserialized (v : JValue)
deriving Repr

/-- Python `None` / `Optional[str]` into a JSON value (`session["voice"] =
self.voice_choice`). -/
def optToJ : Option String → JValue
  | none => .jnull
  | some s => .jstr s

/-- Outcome of one run of `_process_message_to_client` on one frame:
final contents of `_tools_pending`, the `send_json` payloads emitted on
the upstream socket and on the client socket (in order), and either the
returned value (`None` = suppress, `some` = forward) or the exception
that escaped.  State and sends are reported even when an exception
escapes, because Python does not roll them back. -/
structure ToClientRun where
  pending : PendingMap
  serverSends : List JValue
  clientSends : List JValue
  outcome : Except PyError (Option OutFrame)

/-- Run result forwarding the original frame with no effects. -/
def forwardOriginal (p : PendingMap) : ToClientRun :=
  ⟨p, [], [], .ok (some .original)⟩

/-- Run result suppressing the frame with no effects. -/
def suppress (p : PendingMap) : ToClientRun :=
  ⟨p, [], [], .ok none⟩

/-- Run result for an exception escaping before any effect. -/
def raisedTC (p : PendingMap) (e : PyError) : ToClientRun :=
  ⟨p, [], [], .error e⟩

/-- rtmt.py lines 96-105, the `session.created` case: hide instructions,
tools and max tokens from the client, force the policy voice and
`tool_choice = "none"`, then re-serialize. -/
def caseSessionCreated (rt : RTMiddleTier) (p : PendingMap)
    (mf : List (String × JValue)) : ToClientRun :=
  match lookupField mf "session" with
  | none => raisedTC p .keyError
  | some (.jobj sf) =>
    let sf := setField sf "instructions" (.jstr "")
    let sf := setField sf "tools" (.jarr [])
    let sf := setField sf "voice" (optToJ rt.voice_choice)
    let sf := setField sf "tool_choice" (.jstr "none")
    let sf := setField sf "max_response_output_tokens" .jnull
    ⟨p, [], [], .ok (some (.reserialized (.jobj (setField mf "session" (.jobj sf)))))⟩
  | some _ => raisedTC p .typeError

/-- rtmt.py lines 107-109, the `response.output_item.added` case:
suppress when the item is a function call, otherwise pass through. -/
def caseOutputItemAdded (p : PendingMap) (mf : List (String × JValue)) : ToClientRun :=
  match lookupField mf "item" with
  | none => forwardOriginal p
  | some item =>
    match pyIndex item "type" with
    | .error e => raisedTC p e
    | .ok (.jstr t) =>
      if t = "function_call" then suppress p else forwardOriginal p
    | .ok _ => forwardOriginal p

/-- rtmt.py lines 111-118, the `conversation.item.created` case: record a
pending tool call (if the call id is new) and suppress for a
function-call item; suppress for a function-call-output item; pass
through otherwise. -/
def caseItemCreated (p : PendingMap) (mf : List (String × JValue)) : ToClientRun :=
  match lookupField mf "item" with
  | none => forwardOriginal p
  | some item =>
    match pyIndex item "type" with
    | .error e => raisedTC p e
    | .ok (.jstr t) =>
      if t = "function_call" then
        match pyIndex item "call_id" with
        | .error e => raisedTC p e
        | .ok cid =>
          if isHashable cid then
            if (lookupPending p cid).isSome then suppress p
            else
              match lookupField mf "previous_item_id" with
              | none => raisedTC p .keyError
              | some prev => ⟨pendingInsert p cid ⟨cid, prev⟩, [], [], .ok none⟩
          else raisedTC p .typeError
      else if t = "function_call_output" then suppress p
      else forwardOriginal p
    | .ok _ => forwardOriginal p

/-- The `function_call_output` message sent upstream after a tool run
(rtmt.py lines 133-140): carries the result text for a `TO_SERVER`
result and an empty output for a `TO_CLIENT` result. -/
def functionCallOutputMsg (cid : JValue) (r : ToolResult) : JValue :=
  .jobj [("type", .jstr "conversation.item.create"),
         ("item", .jobj [("type", .jstr "function_call_output"),
                         ("call_id", cid),
                         ("output", .jstr (if r.destination = .TO_SERVER then r.to_text else ""))])]

/-- The side-channel message sent directly to the client for a
`TO_CLIENT` tool result (rtmt.py lines 144-149). -/
def middleTierToolResponseMsg (prev nameV : JValue) (r : ToolResult) : JValue :=
  .jobj [("type", .jstr "extension.middle_tier_tool_response"),
         ("previous_item_id", prev),
         ("tool_name", nameV),
         ("tool_result", .jstr r.to_text)]

/-- rtmt.py lines 126-150, the `response.output_item.done` case for a
function-call item: look up the pending call and the registered tool,
parse the arguments, run the handler, send a `function_call_output`
upstream (and, for a `TO_CLIENT` result, the side-channel message to the
client), then suppress the triggering frame.  Lookup failures, a
non-string or unparseable `arguments` payload, and handler exceptions
escape uncaught. -/
def caseOutputItemDone (loads : String → Except PyError JValue)
    (rt : RTMiddleTier) (p : PendingMap) (mf : List (String × JValue)) : ToClientRun :=
  match lookupField mf "item" with
  | none => forwardOriginal p
  | some item =>
    match pyIndex item "type" with
    | .error e => raisedTC p e
    | .ok (.jstr t) =>
      if t = "function_call" then
        match pyIndex item "call_id" with
        | .error e => raisedTC p e
        | .ok cid =>
          match pendingGet p cid with
          | .error e => raisedTC p e
          | .ok tool_call =>
            match pyIndex item "name" with
            | .error e => raisedTC p e
            | .ok nameV =>
              match toolsLookup rt.tools nameV with
              | .error e => raisedTC p e
              | .ok tool =>
                match pyIndex item "arguments" with
                | .error e => raisedTC p e
                | .ok (.jstr argText) =>
                  match loads argText with
                  | .error e => raisedTC p e
                  | .ok argv =>
                    match tool.target argv with
                    | .error e => raisedTC p e
                    | .ok result =>
                      if result.destination = .TO_CLIENT then
                        ⟨p, [functionCallOutputMsg cid result],
                            [middleTierToolResponseMsg tool_call.previous_id nameV result],
                            .ok none⟩
                      else
                        ⟨p, [functionCallOutputMsg cid result], [], .ok none⟩
                | .ok _ => raisedTC p .typeError
      else forwardOriginal p
    | .ok _ => forwardOriginal p

/-- One step of rtmt.py lines 160-163: Python
`for i, output in enumerate(reversed(lst)): if output["type"] ==
"function_call": lst.pop(i)` with live mutation.  `ridx` is the reversed
iterator's internal index (`CPython` yields `lst[ridx]` while
`0 <= ridx < len(lst)` and decrements it, stopping otherwise), `i` is the
`enumerate` counter, and `pop(i)` raises `IndexError` when `i` is out of
range for the current list.  The iterator index strictly decreases, so
fuel `lst.length + 1` is never exhausted. -/
def popLoop (fuel : Nat) (lst : List JValue) (ridx : Int) (i : Nat)
    (replace : Bool) : Except PyError (List JValue × Bool) :=
  match fuel with
  | 0 => .error .fuelExhausted
  | fuel + 1 =>
    if h : 0 ≤ ridx ∧ ridx < (lst.length : Int) then
      match pyIndex (lst.get ⟨ridx.toNat, by omega⟩) "type" with
      | .error e => .error e
      | .ok ty =>
        match ty with
        | .jstr t =>
          if t = "function_call" then
            if i < lst.length then popLoop fuel (lst.eraseIdx i) (ridx - 1) (i + 1) true
            else .error .indexError
          else popLoop fuel lst (ridx - 1) (i + 1) replace
        | _ => popLoop fuel lst (ridx - 1) (i + 1) replace
  else .ok (lst, replace)

/-- The upstream message requesting a continuation response (rtmt.py
lines 155-157). -/
def responseCreateMsg : JValue := .jobj [("type", .jstr "response.create")]

/-- rtmt.py lines 152-165, the `response.done` case: when the pending map
is non-empty, clear it and send one `response.create` upstream; then
scan `message["response"]["output"]` with the reversed/`pop` loop and
re-serialize only if an entry was removed.  Python's `reversed` accepts
strings and dicts as sequences, whose elements are one-character strings
or keys, so a non-empty string or dict fails at `output["type"]` with
`TypeError`; other non-lists fail at `reversed` itself. -/
def caseResponseDone (p : PendingMap) (mf : List (String × JValue)) : ToClientRun :=
  let p2 : PendingMap := if p.isEmpty then p else []
  let sends : List JValue := if p.isEmpty then [] else [responseCreateMsg]
  match lookupField mf "response" with
  | none => ⟨p2, sends, [], .ok (some .original)⟩
  | some resp =>
    match pyIndex resp "output" with
    | .error e => ⟨p2, sends, [], .error e⟩
    | .ok (.jarr lst) =>
      match popLoop (lst.length + 1) lst ((lst.length : Int) - 1) 0 false with
      | .error e => ⟨p2, sends, [], .error e⟩
      | .ok (lst2, replace) =>
        if replace then
          match resp with
          | .jobj rf =>
            ⟨p2, sends, [],
             .ok (some (.reserialized (.jobj (setField mf "response"
               (.jobj (setField rf "output" (.jarr lst2)))))))⟩
          | _ => ⟨p2, sends, [], .error .typeError⟩
        else ⟨p2, sends, [], .ok (some .original)⟩
    | .ok (.jstr s) =>
      if s.length = 0 then ⟨p2, sends, [], .ok (some .original)⟩
      else ⟨p2, sends, [], .error .typeError⟩
    | .ok (.jobj rf) =>
      if rf.isEmpty then ⟨p2, sends, [], .ok (some .original)⟩
      else ⟨p2, sends, [], .error .typeError⟩
    | .ok _ => ⟨p2, sends, [], .error .typeError⟩

/-- Dispatch on `message["type"]` for the upstream-to-client direction
(rtmt.py lines 95-165).  A non-string type tag matches no case and the
frame passes through. -/
def toClientCases (loads : String → Except PyError JValue) (rt : RTMiddleTier)
    (p : PendingMap) (mf : List (String × JValue)) (ty : JValue) : ToClientRun :=
  match ty with
  | .jstr t =>
    if t = "session.created" then caseSessionCreated rt p mf
    else if t = "response.output_item.added" then caseOutputItemAdded p mf
    else if t = "conversation.item.created" then caseItemCreated p mf
    else if t = "response.function_call_arguments.delta" then suppress p
    else if t = "response.function_call_arguments.done" then suppress p
    else if t = "response.output_item.done" then caseOutputItemDone loads rt p mf
    else if t = "response.done" then caseResponseDone p mf
    else forwardOriginal p
  | _ => forwardOriginal p

/-- rtmt.py `RTMiddleTier._process_message_to_client` on one text frame:
`json.loads` the frame (an unparseable frame raises), pass a `null`
message through, dispatch a dict on its `"type"` (a missing tag raises
`KeyError`, a non-dict message raises `TypeError`). -/
def _process_message_to_client (loads : String → Except PyError JValue)
    (rt : RTMiddleTier) (p : PendingMap) : WireFrame → ToClientRun
  | .malformed => raisedTC p .jsonDecodeError
  | .parsed .jnull => forwardOriginal p
  | .parsed (.jobj mf) =>
    match lookupField mf "type" with
    | none => raisedTC p .keyError
    | some ty => toClientCases loads rt p mf ty
  | .parsed _ => raisedTC p .typeError

/-- rtmt.py lines 174-210, the `session.update` case of
`_process_message_to_server`: merge the set policy fields into the
session, force transcription, audio format, modalities and turn
detection, inject the registry's schemas as the tool list with
`tool_choice` `"auto"` exactly when the registry is non-empty, and always
re-serialize. -/
def caseSessionUpdate (rt : RTMiddleTier) (mf : List (String × JValue)) :
    Except PyError (Option OutFrame) :=
  match lookupField mf "session" with
  | none => .error .keyError
  | some (.jobj sf0) =>
    let sf := match rt.system_message with
      | some s => setField sf0 "instructions" (.jstr s)
      | none => sf0
    let sf := match rt.temperature with
      | some q => setField sf "temperature" (.jnum q)
      | none => sf
    let sf := match rt.top_p with
      | some q => setField sf "top_p" (.jnum q)
      | none => sf
    let sf := match rt.presence_penalty with
      | some q => setField sf "presence_penalty" (.jnum q)
      | none => sf
    let sf := match rt.frequency_penalty with
      | some q => setField sf "frequency_penalty" (.jnum q)
      | none => sf
    let sf := match rt.max_tokens with
      | some n => setField sf "max_response_output_tokens" (.jnum n)
      | none => sf
    let sf := match rt.disable_audio with
      | some b => setField sf "disable_audio" (.jbool b)
      | none => sf
    let sf := match rt.voice_choice with
      | some v => setField sf "voice" (.jstr v)
      | none => sf
    let sf := setField sf "input_audio_transcription"
      (.jobj [("model", .jstr "whisper-1"), ("language", .jstr "en")])
    let sf := setField sf "output_audio_format" (.jstr "pcm16")
    let sf := setField sf "modalities" (.jarr [.jstr "text", .jstr "audio"])
    let sf := setField sf "turn_detection"
      (.jobj [("type", .jstr "server_vad"), ("threshold", .jnum (1 / 2)),
              ("prefix_padding_ms", .jnum 300), ("silence_duration_ms", .jnum 800)])
    let sf := setField sf "tool_choice"
      (.jstr (if rt.tools.length > 0 then "auto" else "none"))
    let sf := setField sf "tools" (.jarr (rt.tools.map (fun kt => kt.2.schema)))
    .ok (some (.reserialized (.jobj (setField mf "session" (.jobj sf)))))
  | some _ => .error .typeError

/-- rtmt.py `RTMiddleTier._process_message_to_server` on one text frame:
`json.loads` the frame (an unparseable frame raises), rewrite only
`session.update` messages, pass everything else through untouched. -/
def _process_message_to_server (rt : RTMiddleTier) :
    WireFrame → Except PyError (Option OutFrame)
  | .malformed => .error .jsonDecodeError
  | .parsed .jnull => .ok (some .original)
  | .parsed (.jobj mf) =>
    match lookupField mf "type" with
    | none => .error .keyError
    | some (.jstr t) =>
      if t = "session.update" then caseSessionUpdate rt mf
      else .ok (some .original)
    | some _ => .ok (some .original)
  | .parsed _ => .error .typeError

/-- The client-to-upstream pump (rtmt.py `from_client_to_server`, lines
239-274) over a list of incoming text frames: the logging block's
`try/except json.JSONDecodeError` protects only the logging re-parse;
`_process_message_to_server` is called outside it, so its exception
escapes the `async for` loop and aborts the pump.  Returns the frames
forwarded upstream and the exception that ended the pump, if any. -/
def from_client_to_server (rt : RTMiddleTier) :
    List WireFrame → List OutFrame × Option PyError
  | [] => ([], none)
  | f :: rest =>
    match _process_message_to_server rt f with
    | .error e => ([], some e)
    | .ok none => from_client_to_server rt rest
    | .ok (some m) =>
      let r := from_client_to_server rt rest
      (m :: r.1, r.2)

/-- The upstream-to-client pump (rtmt.py `from_server_to_client`, lines
281-312) over a list of incoming text frames, threading the pending map:
as on the other pump, only the logging re-parse is guarded, so an
exception out of `_process_message_to_client` aborts the pump.  Returns
the frames forwarded to the client and the exception that ended the
pump, if any. -/
def from_server_to_client (loads : String → Except PyError JValue)
    (rt : RTMiddleTier) (p : PendingMap) :
    List WireFrame → List OutFrame × Option PyError
  | [] => ([], none)
  | f :: rest =>
    let run := _process_message_to_client loads rt p f
    match run.outcome with
    | .error e => ([], some e)
    | .ok none => from_server_to_client loads rt run.pending rest
    | .ok (some m) =>
      let r := from_server_to_client loads rt run.pending rest
      (m :: r.1, r.2)

/-- rtmt.py line 72: `_tools_pending = {}` is a class attribute of
`RTMiddleTier`, created once with the class object and never rebound on
an instance (the handlers only index into it or call `.clear()` on it),
so one dictionary object is shared by every `RTMiddleTier` instance and
every concurrently served session in the process. -/
structure ProcessWorld where
  tools_pending : PendingMap

/-- The pending map any session observes: every session reads the same
class-level dictionary. -/
def sessionPendingView (w : ProcessWorld) : PendingMap := w.tools_pending

/-- One upstream-to-client processing step performed while serving some
session on relay instance `rt`: it reads and writes the single
class-level pending dictionary. -/
def sessionStep (loads : String → Except PyError JValue) (rt : RTMiddleTier)
    (w : ProcessWorld) (frame : WireFrame) : ProcessWorld × ToClientRun :=
  let run := _process_message_to_client loads rt w.tools_pending frame
  (⟨run.pending⟩, run)

/-- Predicate (as the source computes it) for the five upstream message
shapes of function-call kind named by the suppression table. -/
def typeIs (mf : List (String × JValue)) (s : String) : Bool :=
  match lookupField mf "type" with
  | some (.jstr t) => t = s
  | _ => false

/-- The item payload of a message has the given item type. -/
def itemTypeIs (mf : List (String × JValue)) (s : String) : Bool :=
  match lookupField mf "item" with
  | some (.jobj itf) =>
    match lookupField itf "type" with
    | some (.jstr t) => t = s
    | _ => false
  | _ => false

/-- A parsed upstream message is of function-call kind: a function-call
output item added, a function-call or function-call-output conversation
item created, a function-call arguments delta or done, or a
function-call output item done. -/
def functionCallKind (v : JValue) : Bool :=
  match v with
  | .jobj mf =>
    typeIs mf "response.function_call_arguments.delta" ||
    typeIs mf "response.function_call_arguments.done" ||
    (typeIs mf "response.output_item.added" && itemTypeIs mf "function_call") ||
    (typeIs mf "conversation.item.created" &&
      (itemTypeIs mf "function_call" || itemTypeIs mf "function_call_output")) ||
    (typeIs mf "response.output_item.done" && itemTypeIs mf "function_call")
  | _ => false

/-- A `loads` oracle for concrete runs: every argument string parses to
an empty JSON object. -/
def loadsEx : String → Except PyError JValue := fun _ => .ok (.jobj [])

/-- A concrete `TO_SERVER` tool result, as in the spec's search
scenario. -/
def toolResultEx : ToolResult := ⟨.jstr "[doc1]: text", .TO_SERVER⟩

/-- A concrete registered tool returning `toolResultEx`. -/
def searchTool : Tool := ⟨.jobj [("type", .jstr "function")], fun _ => .ok toolResultEx⟩

/-- A concrete tool whose result is a structured payload delivered to the
client, like `report_grounding` in ragtools.py. -/
def groundingResultEx : ToolResult := ⟨.jobj [("sources", .jarr [])], .TO_CLIENT⟩

/-- The grounding-like tool. -/
def groundingTool : Tool := ⟨.jobj [("type", .jstr "function")], fun _ => .ok groundingResultEx⟩

/-- A tool whose handler raises. -/
def failTool : Tool := ⟨.jnull, fun _ => .error (.handlerError "boom")⟩

/-- A concrete relay configuration with one registered tool. -/
def rtEx : RTMiddleTier :=
  ⟨some "Answer in English", some (4 / 5), some (9 / 10), some (2 / 5), some (1 / 5),
   none, none, some "sage", [("search", searchTool)]⟩

/-- A second, distinct relay configuration sharing no Lean state with
`rtEx` (in the source, even two distinct `RTMiddleTier` objects share the
one class-level `_tools_pending` dictionary). -/
def rtEx2 : RTMiddleTier :=
  ⟨none, none, none, none, none, none, none, some "alloy",
   [("search", searchTool), ("grounding", groundingTool)]⟩

/-- A relay configuration whose registry also holds the failing tool. -/
def rtFail : RTMiddleTier :=
  ⟨none, none, none, none, none, none, none, none, [("search", failTool)]⟩

/-- A `conversation.item.created` frame announcing function call `c1`. -/
def createFrameEx : JValue :=
  .jobj [("type", .jstr "conversation.item.created"),
         ("previous_item_id", .jstr "item_prev"),
         ("item", .jobj [("type", .jstr "function_call"), ("call_id", .jstr "c1")])]

/-- A `response.output_item.done` frame completing function call `c1`
with the tool named `search`. -/
def doneFrameEx : JValue :=
  .jobj [("type", .jstr "response.output_item.done"),
         ("item", .jobj [("type", .jstr "function_call"), ("call_id", .jstr "c1"),
                         ("name", .jstr "search"),
                         ("arguments", .jstr "\x7b\"query\": \"refill\"\x7d")])]

/-- An output entry of function-call kind. -/
def fcOutputEntry : JValue := .jobj [("type", .jstr "function_call"), ("id", .jstr "fc1")]

/-- An output entry that is not a function call. -/
def msgOutputEntry : JValue := .jobj [("type", .jstr "message"), ("id", .jstr "m1")]

/-- A `response.done` frame whose response output holds a function-call
entry followed by a message entry. -/
def responseDoneFcFirst : JValue :=
  .jobj [("type", .jstr "response.done"),
         ("response", .jobj [("output", .jarr [fcOutputEntry, msgOutputEntry])])]

/-- A `response.done` frame whose response output holds a message entry
followed by a function-call entry. -/
def responseDoneFcLast : JValue :=
  .jobj [("type", .jstr "response.done"),
         ("response", .jobj [("output", .jarr [msgOutputEntry, fcOutputEntry])])]

/-- A benign upstream frame that passes through verbatim. -/
def benignFrame : JValue := .jobj [("type", .jstr "response.audio.delta")]

/-- A relay configuration with an empty tool registry. -/
def rtEmpty : RTMiddleTier :=
  ⟨none, none, none, none, none, none, none, none, []⟩

/-- A pending map holding the single call `c1` as recorded from
`createFrameEx`. -/
def pendingC1 : PendingMap := [(.jstr "c1", ⟨.jstr "c1", .jstr "item_prev"⟩)]

theorem lookupField_setField_self (fs : List (String × JValue)) (k : String) (v : JValue) :
    lookupField (setField fs k v) k = some v := by
  induction fs with
  | nil => simp [setField, lookupField]
  | cons hd tl ih =>
    by_cases h : hd.1 = k
    · simp [setField, h, lookupField]
    · simp [setField, h, lookupField, ih]

theorem lookupField_setField_ne (fs : List (String × JValue)) (k k2 : String) (v : JValue)
    (h : ¬ k2 = k) : lookupField (setField fs k v) k2 = lookupField fs k2 := by
  have h2 : ¬ k = k2 := Ne.symm h
  induction fs with
  | nil => simp [setField, lookupField, h2]
  | cons hd tl ih =>
    obtain ⟨k3, w⟩ := hd
    by_cases hh : k3 = k
    · subst hh
      simp [setField, lookupField, h2]
    · by_cases hk2 : k3 = k2
      · subst hk2
        simp [setField, h, lookupField]
      · simp [setField, hh, lookupField, hk2, ih]

theorem typeIs_lookup {mf : List (String × JValue)} {s : String}
    (h : typeIs mf s = true) : lookupField mf "type" = some (.jstr s) := by
  unfold typeIs at h
  split at h
  · next t heq =>
    rw [heq, of_decide_eq_true h]
  · exact absurd h (by simp)

theorem ppc_dispatch (loads : String → Except PyError JValue) (rt : RTMiddleTier)
    (p : PendingMap) (mf : List (String × JValue)) {s : String}
    (h : typeIs mf s = true) :
    _process_message_to_client loads rt p (.parsed (.jobj mf))
      = toClientCases loads rt p mf (.jstr s) := by
  simp only [_process_message_to_client]
  rw [typeIs_lookup h]

theorem pps_dispatch (rt : RTMiddleTier) (mf : List (String × JValue)) {s : String}
    (h : typeIs mf s = true) :
    _process_message_to_server rt (.parsed (.jobj mf))
      = (if s = "session.update" then caseSessionUpdate rt mf
         else .ok (some .original)) := by
  simp only [_process_message_to_server]
  rw [typeIs_lookup h]

/-- Claim C2 counterexample: the `response.done` output scan at rtmt.py
lines 160-163 pops with the `enumerate` index of the *reversed* iterator
into the *forward* list.  With output `[function_call, message]` the loop
removes the message entry instead, so the re-serialized frame forwarded to
the client still contains the function-call entry; with output
`[message, function_call]` the second `pop` raises `IndexError`. -/
theorem response_done_reversed_pop_leaves_function_call :
    (_process_message_to_client loadsEx rtEx [] (.parsed responseDoneFcFirst)).outcome
      = .ok (some (.reserialized (.jobj
          [("type", .jstr "response.done"),
           ("response", .jobj [("output", .jarr [fcOutputEntry])])]))) ∧
    (_process_message_to_client loadsEx rtEx [] (.parsed responseDoneFcLast)).outcome
      = .error .indexError := by
  exact ⟨rfl, rfl⟩

/-- Claim C3: rtmt.py line 72 declares `_tools_pending = {}` as a class
attribute, so one dictionary is shared by every session and every relay
instance.  A `conversation.item.created` processed while serving a
session on relay `rtEx` inserts call `c1` into the shared dictionary, and
a session on the distinct relay instance `rtEx2` then observes and
consumes that entry when it processes the matching
`response.output_item.done`. -/
theorem tools_pending_shared_across_sessions :
    sessionPendingView (sessionStep loadsEx rtEx ⟨[]⟩ (.parsed createFrameEx)).1
      = pendingC1 ∧
    (sessionStep loadsEx rtEx2
      (sessionStep loadsEx rtEx ⟨[]⟩ (.parsed createFrameEx)).1
      (.parsed doneFrameEx)).2.outcome = .ok none ∧
    (sessionStep loadsEx rtEx2
      (sessionStep loadsEx rtEx ⟨[]⟩ (.parsed createFrameEx)).1
      (.parsed doneFrameEx)).2.serverSends
      = [functionCallOutputMsg (.jstr "c1") toolResultEx] := by
  exact ⟨rfl, rfl, rfl⟩

/-- Claim C4: the tool-execution path at rtmt.py lines 126-150 has no
exception handling.  An unknown call id (empty pending map) raises
`KeyError`, an unknown tool name (empty registry) raises `KeyError`, and
a handler exception escapes as raised — in each case nothing is routed
back into the conversation (no upstream send) and the exception
propagates out of `_process_message_to_client`, terminating the pump. -/
theorem tool_failure_raises_uncaught :
    ((_process_message_to_client loadsEx rtEx [] (.parsed doneFrameEx)).outcome
        = .error .keyError ∧
     (_process_message_to_client loadsEx rtEx [] (.parsed doneFrameEx)).serverSends = []) ∧
    ((_process_message_to_client loadsEx rtEmpty pendingC1 (.parsed doneFrameEx)).outcome
        = .error .keyError ∧
     (_process_message_to_client loadsEx rtEmpty pendingC1 (.parsed doneFrameEx)).serverSends = []) ∧
    ((_process_message_to_client loadsEx rtFail pendingC1 (.parsed doneFrameEx)).outcome
        = .error (.handlerError "boom") ∧
     (_process_message_to_client loadsEx rtFail pendingC1 (.parsed doneFrameEx)).serverSends = []) ∧
    (from_server_to_client loadsEx rtFail pendingC1
        [.parsed doneFrameEx, .parsed benignFrame]
      = ([], some (.handlerError "boom"))) := by
  exact ⟨⟨rfl, rfl⟩, ⟨rfl, rfl⟩, ⟨rfl, rfl⟩, rfl⟩

/-- Claim C5: the `try/except json.JSONDecodeError` blocks at rtmt.py
lines 242-268 and 284-306 guard only the logging re-parse;
`_process_message_to_server` and `_process_message_to_client` are invoked
outside them and re-run `json.loads`, whose `JSONDecodeError` escapes the
pump loop.  On either pump a malformed first frame aborts the pump before
the following benign frame is forwarded, while the benign frame alone
would have been forwarded verbatim. -/
theorem malformed_frame_aborts_pump :
    from_client_to_server rtEx [.malformed, .parsed benignFrame]
      = ([], some .jsonDecodeError) ∧
    from_server_to_client loadsEx rtEx [] [.malformed, .parsed benignFrame]
      = ([], some .jsonDecodeError) ∧
    from_client_to_server rtEx [.parsed benignFrame] = ([.original], none) ∧
    from_server_to_client loadsEx rtEx [] [.parsed benignFrame]
      = ([.original], none) := by
  exact ⟨rfl, rfl, rfl, rfl⟩

theorem toClientCases_session_created (loads : String → Except PyError JValue)
    (rt : RTMiddleTier) (p : PendingMap) (mf : List (String × JValue)) :
    toClientCases loads rt p mf (.jstr "session.created") = caseSessionCreated rt p mf := by
  rfl

theorem toClientCases_output_item_added (loads : String → Except PyError JValue)
    (rt : RTMiddleTier) (p : PendingMap) (mf : List (String × JValue)) :
    toClientCases loads rt p mf (.jstr "response.output_item.added")
      = caseOutputItemAdded p mf := by
  rfl

theorem toClientCases_item_created (loads : String → Except PyError JValue)
    (rt : RTMiddleTier) (p : PendingMap) (mf : List (String × JValue)) :
    toClientCases loads rt p mf (.jstr "conversation.item.created")
      = caseItemCreated p mf := by
  rfl

theorem toClientCases_args_delta (loads : String → Except PyError JValue)
    (rt : RTMiddleTier) (p : PendingMap) (mf : List (String × JValue)) :
    toClientCases loads rt p mf (.jstr "response.function_call_arguments.delta")
      = suppress p := by
  rfl

theorem toClientCases_args_done (loads : String → Except PyError JValue)
    (rt : RTMiddleTier) (p : PendingMap) (mf : List (String × JValue)) :
    toClientCases loads rt p mf (.jstr "response.function_call_arguments.done")
      = suppress p := by
  rfl

theorem toClientCases_output_item_done (loads : String → Except PyError JValue)
    (rt : RTMiddleTier) (p : PendingMap) (mf : List (String × JValue)) :
    toClientCases loads rt p mf (.jstr "response.output_item.done")
      = caseOutputItemDone loads rt p mf := by
  rfl

theorem toClientCases_response_done (loads : String → Except PyError JValue)
    (rt : RTMiddleTier) (p : PendingMap) (mf : List (String × JValue)) :
    toClientCases loads rt p mf (.jstr "response.done") = caseResponseDone p mf := by
  rfl

theorem caseResponseDone_state (p : PendingMap) (mf : List (String × JValue)) :
    (caseResponseDone p mf).pending = (if p.isEmpty then p else []) ∧
    (caseResponseDone p mf).serverSends
      = (if p.isEmpty then [] else [responseCreateMsg]) := by
  unfold caseResponseDone
  repeat' split
  all_goals exact ⟨rfl, rfl⟩

/-- Claim C9: for every `response.done` message processed from upstream,
if the pending-tool-call map held at least one entry then afterwards the
map is empty and exactly one `response.create` continuation request was
sent upstream; if it was empty, the map is unchanged and no continuation
request is sent (rtmt.py lines 152-157). -/
theorem response_done_clears_pending_once (loads : String → Except PyError JValue)
    (rt : RTMiddleTier) (p : PendingMap) (mf : List (String × JValue))
    (h : typeIs mf "response.done" = true) :
    (p ≠ [] →
      (_process_message_to_client loads rt p (.parsed (.jobj mf))).pending = [] ∧
      (_process_message_to_client loads rt p (.parsed (.jobj mf))).serverSends
        = [responseCreateMsg]) ∧
    (p = [] →
      (_process_message_to_client loads rt p (.parsed (.jobj mf))).pending = p ∧
      (_process_message_to_client loads rt p (.parsed (.jobj mf))).serverSends = []) := by
  rw [ppc_dispatch loads rt p mf h, toClientCases_response_done]
  obtain ⟨h1, h2⟩ := caseResponseDone_state p mf
  constructor
  · intro hp
    have hne : p.isEmpty = false := by
      cases p with
      | nil => exact absurd rfl hp
      | cons a as => rfl
    rw [hne] at h1 h2
    simpa using ⟨h1, h2⟩
  · intro hp
    subst hp
    simpa using ⟨h1, h2⟩

/-- Witness for `response_done_clears_pending_once` at a concrete
non-empty pending map and a concrete `response.done` frame. -/
theorem response_done_clears_pending_once_witness :
    typeIs [("type", .jstr "response.done")] "response.done" = true ∧
    pendingC1 ≠ [] ∧
    ((_process_message_to_client loadsEx rtEx pendingC1
        (.parsed (.jobj [("type", .jstr "response.done")]))).pending = [] ∧
     (_process_message_to_client loadsEx rtEx pendingC1
        (.parsed (.jobj [("type", .jstr "response.done")]))).serverSends
        = [responseCreateMsg]) := by
  refine ⟨by decide, by simp [pendingC1], ?_⟩
  exact (response_done_clears_pending_once loadsEx rtEx pendingC1
    [("type", .jstr "response.done")] (by decide)).1 (by simp [pendingC1])

/-- Claim C7: every `session.created` frame from upstream that is
forwarded to the client has empty instructions, an empty tool list, a
cleared max token budget, the policy voice, and `tool_choice` `"none"`,
regardless of the content sent by upstream (rtmt.py lines 96-105). -/
theorem session_created_strips_sensitive_fields
    (loads : String → Except PyError JValue) (rt : RTMiddleTier) (p : PendingMap)
    (mf : List (String × JValue)) (out : Option OutFrame)
    (h : typeIs mf "session.created" = true)
    (hok : (_process_message_to_client loads rt p (.parsed (.jobj mf))).outcome = .ok out) :
    ∃ m, out = some (.reserialized (.jobj m)) ∧
      ∃ sf, lookupField m "session" = some (.jobj sf) ∧
        lookupField sf "instructions" = some (.jstr "") ∧
        lookupField sf "tools" = some (.jarr []) ∧
        lookupField sf "voice" = some (optToJ rt.voice_choice) ∧
        lookupField sf "tool_choice" = some (.jstr "none") ∧
        lookupField sf "max_response_output_tokens" = some .jnull := by
  rw [ppc_dispatch loads rt p mf h, toClientCases_session_created] at hok
  unfold caseSessionCreated at hok
  cases hs : lookupField mf "session" with
  | none =>
    rw [hs] at hok
    exact absurd hok (by simp [raisedTC])
  | some sv =>
    rw [hs] at hok
    cases sv with
    | jobj sf0 =>
      simp only [ToClientRun.outcome, Except.ok.injEq] at hok
      subst hok
      refine ⟨_, rfl, _, lookupField_setField_self _ _ _, ?_, ?_, ?_, ?_, ?_⟩
      all_goals
        simp [lookupField_setField_self, lookupField_setField_ne]
    | jnull => exact absurd hok (by simp [raisedTC])
    | jbool b => exact absurd hok (by simp [raisedTC])
    | jnum q => exact absurd hok (by simp [raisedTC])
    | jstr s => exact absurd hok (by simp [raisedTC])
    | jarr xs => exact absurd hok (by simp [raisedTC])

/-- Claim C6: every `session.update` frame translated client-to-upstream
is re-serialized with `session.tools` equal to the schemas of all
registered tools and `session.tool_choice` equal to `"auto"` exactly when
the registry is non-empty, `"none"` otherwise (rtmt.py lines 174-210). -/
theorem session_update_injects_registry_tools (rt : RTMiddleTier)
    (mf : List (String × JValue)) (out : Option OutFrame)
    (h : typeIs mf "session.update" = true)
    (hok : _process_message_to_server rt (.parsed (.jobj mf)) = .ok out) :
    ∃ m, out = some (.reserialized (.jobj m)) ∧
      ∃ sf, lookupField m "session" = some (.jobj sf) ∧
        lookupField sf "tools" = some (.jarr (rt.tools.map (fun kt => kt.2.schema))) ∧
        (rt.tools ≠ [] → lookupField sf "tool_choice" = some (.jstr "auto")) ∧
        (rt.tools = [] → lookupField sf "tool_choice" = some (.jstr "none")) := by
  rw [pps_dispatch rt mf h, if_pos rfl] at hok
  unfold caseSessionUpdate at hok
  cases hs : lookupField mf "session" with
  | none =>
    rw [hs] at hok
    exact absurd hok (by simp)
  | some sv =>
    rw [hs] at hok
    cases sv with
    | jobj sf0 =>
      simp only [Except.ok.injEq] at hok
      subst hok
      refine ⟨_, rfl, _, lookupField_setField_self _ _ _, ?_, ?_, ?_⟩
      · simp [lookupField_setField_self]
      · intro hne
        cases htools : rt.tools with
        | nil => exact absurd htools hne
        | cons a as =>
          simp [lookupField_setField_self, lookupField_setField_ne]
      · intro heq
        simp [heq, lookupField_setField_self, lookupField_setField_ne]
    | jnull => exact absurd hok (by simp)
    | jbool b => exact absurd hok (by simp)
    | jnum q => exact absurd hok (by simp)
    | jstr s => exact absurd hok (by simp)
    | jarr xs => exact absurd hok (by simp)

theorem itemTypeIs_lookup {mf : List (String × JValue)} {s : String}
    (h : itemTypeIs mf s = true) :
    ∃ itf, lookupField mf "item" = some (.jobj itf) ∧
      lookupField itf "type" = some (.jstr s) := by
  unfold itemTypeIs at h
  split at h
  · next itf heq =>
    split at h
    · next t heq2 =>
      exact ⟨itf, heq, by rw [heq2, of_decide_eq_true h]⟩
    · exact absurd h (by simp)
  · exact absurd h (by simp)

theorem caseOutputItemAdded_suppresses (p : PendingMap) (mf : List (String × JValue))
    (out : Option OutFrame) (hi : itemTypeIs mf "function_call" = true)
    (h : (caseOutputItemAdded p mf).outcome = .ok out) : out = none := by
  obtain ⟨itf, hitem, hty⟩ := itemTypeIs_lookup hi
  unfold caseOutputItemAdded at h
  rw [hitem] at h
  simp only [pyIndex] at h
  rw [hty] at h
  simp [suppress] at h
  exact h.symm

theorem caseItemCreated_suppresses (p : PendingMap) (mf : List (String × JValue))
    (out : Option OutFrame)
    (hi : (itemTypeIs mf "function_call" || itemTypeIs mf "function_call_output") = true)
    (h : (caseItemCreated p mf).outcome = .ok out) : out = none := by
  unfold caseItemCreated at h
  have hi2 : itemTypeIs mf "function_call" = true ∨ itemTypeIs mf "function_call_output" = true := by
    simpa using hi
  rcases hi2 with hfc | hfo
  · obtain ⟨itf, hitem, hty⟩ := itemTypeIs_lookup hfc
    rw [hitem] at h
    simp only [pyIndex] at h
    rw [hty] at h
    simp only [] at h
    repeat' split at h
    all_goals simp_all [suppress, raisedTC, forwardOriginal]
  · obtain ⟨itf, hitem, hty⟩ := itemTypeIs_lookup hfo
    rw [hitem] at h
    simp only [pyIndex] at h
    rw [hty] at h
    simp [suppress] at h
    exact h.symm

theorem caseOutputItemDone_suppresses (loads : String → Except PyError JValue)
    (rt : RTMiddleTier) (p : PendingMap) (mf : List (String × JValue))
    (out : Option OutFrame) (hi : itemTypeIs mf "function_call" = true)
    (h : (caseOutputItemDone loads rt p mf).outcome = .ok out) : out = none := by
  obtain ⟨itf, hitem, hty⟩ := itemTypeIs_lookup hi
  unfold caseOutputItemDone at h
  rw [hitem] at h
  simp only [pyIndex] at h
  rw [hty] at h
  simp only [] at h
  repeat' split at h
  all_goals simp_all [suppress, raisedTC, forwardOriginal]

/-- Claim C1: whenever the upstream-to-client transformer returns on a
message of function-call kind — a `response.output_item.added` with a
function-call item, a `conversation.item.created` with a function-call or
function-call-output item, a `response.function_call_arguments.delta` or
`.done`, or a `response.output_item.done` with a function-call item — it
returns no forwarded frame: the message is suppressed and never sent to
the client (the three suppression points at rtmt.py lines 107-150). -/
theorem function_call_kind_never_forwarded (loads : String → Except PyError JValue)
    (rt : RTMiddleTier) (p : PendingMap) (v : JValue) (out : Option OutFrame)
    (hk : functionCallKind v = true)
    (h : (_process_message_to_client loads rt p (.parsed v)).outcome = .ok out) :
    out = none := by
  cases v with
  | jobj mf =>
    unfold functionCallKind at hk
    rw [Bool.or_eq_true, Bool.or_eq_true, Bool.or_eq_true, Bool.or_eq_true,
        Bool.and_eq_true, Bool.and_eq_true, Bool.and_eq_true] at hk
    rcases hk with (((hk | hk) | ⟨h1, h2⟩) | ⟨h1, h2⟩) | ⟨h1, h2⟩
    · rw [ppc_dispatch loads rt p mf hk, toClientCases_args_delta] at h
      simp [suppress] at h
      exact h.symm
    · rw [ppc_dispatch loads rt p mf hk, toClientCases_args_done] at h
      simp [suppress] at h
      exact h.symm
    · rw [ppc_dispatch loads rt p mf h1, toClientCases_output_item_added] at h
      exact caseOutputItemAdded_suppresses p mf out h2 h
    · rw [ppc_dispatch loads rt p mf h1, toClientCases_item_created] at h
      exact caseItemCreated_suppresses p mf out h2 h
    · rw [ppc_dispatch loads rt p mf h1, toClientCases_output_item_done] at h
      exact caseOutputItemDone_suppresses loads rt p mf out h2 h
  | jnull => exact absurd hk (by simp [functionCallKind])
  | jbool b => exact absurd hk (by simp [functionCallKind])
  | jnum q => exact absurd hk (by simp [functionCallKind])
  | jstr s => exact absurd hk (by simp [functionCallKind])
  | jarr xs => exact absurd hk (by simp [functionCallKind])

/-- Witness for `function_call_kind_never_forwarded` at a concrete
function-call-arguments delta frame. -/
theorem function_call_kind_never_forwarded_witness :
    functionCallKind (.jobj [("type", .jstr "response.function_call_arguments.delta")]) = true ∧
    (_process_message_to_client loadsEx rtEx []
        (.parsed (.jobj [("type", .jstr "response.function_call_arguments.delta")]))).outcome
      = .ok none ∧
    (none : Option OutFrame) = none := by
  refine ⟨by decide, rfl, ?_⟩
  exact function_call_kind_never_forwarded loadsEx rtEx []
    (.jobj [("type", .jstr "response.function_call_arguments.delta")]) none (by decide) rfl

theorem caseOutputItemDone_routing (loads : String → Except PyError JValue)
    (rt : RTMiddleTier) (p : PendingMap) (mf : List (String × JValue))
    (out : Option OutFrame) (hi : itemTypeIs mf "function_call" = true)
    (hok : (caseOutputItemDone loads rt p mf).outcome = .ok out) :
    ∃ (cid nameV prev : JValue) (tool : Tool) (argv : JValue) (r : ToolResult),
      toolsLookup rt.tools nameV = .ok tool ∧
      tool.target argv = .ok r ∧
      (caseOutputItemDone loads rt p mf).serverSends = [functionCallOutputMsg cid r] ∧
      (r.destination = .TO_CLIENT →
        (caseOutputItemDone loads rt p mf).clientSends
          = [middleTierToolResponseMsg prev nameV r]) ∧
      (r.destination = .TO_SERVER →
        (caseOutputItemDone loads rt p mf).clientSends = []) := by
  obtain ⟨itf, hitem, hty⟩ := itemTypeIs_lookup hi
  unfold caseOutputItemDone at hok ⊢
  rw [hitem] at hok ⊢
  simp only [pyIndex] at hok ⊢
  rw [hty] at hok ⊢
  simp only [] at hok ⊢
  simp only [if_true] at hok ⊢
  cases hcid : lookupField itf "call_id" with
  | none => exact absurd hok (by simp [raisedTC, hcid])
  | some cid =>
    cases hpg : pendingGet p cid with
    | error e => exact absurd hok (by simp [raisedTC, hcid, hpg])
    | ok tool_call =>
      cases hname : lookupField itf "name" with
      | none => exact absurd hok (by simp [raisedTC, hcid, hpg, hname])
      | some nameV =>
        cases htool : toolsLookup rt.tools nameV with
        | error e => exact absurd hok (by simp [raisedTC, hcid, hpg, hname, htool])
        | ok tool =>
          cases harg : lookupField itf "arguments" with
          | none => exact absurd hok (by simp [raisedTC, hcid, hpg, hname, htool, harg])
          | some argV =>
            cases argV with
            | jstr argText =>
              cases hload : loads argText with
              | error e =>
                exact absurd hok (by simp [raisedTC, hcid, hpg, hname, htool, harg, hload])
              | ok argv =>
                cases htgt : tool.target argv with
                | error e =>
                  exact absurd hok
                    (by simp [raisedTC, hcid, hpg, hname, htool, harg, hload, htgt])
                | ok result =>
                  refine ⟨cid, nameV, tool_call.previous_id, tool, argv, result,
                    htool, htgt, ?_, ?_, ?_⟩
                  · by_cases hd : result.destination = .TO_CLIENT <;>
                      simp [hd, hcid, hpg, hname, htool, harg, hload, htgt]
                  · intro hd
                    simp [hd, hcid, hpg, hname, htool, harg, hload, htgt]
                  · intro hd
                    simp [hd, hcid, hpg, hname, htool, harg, hload, htgt]
            | jnull => exact absurd hok (by simp [raisedTC, hcid, hpg, hname, htool, harg])
            | jbool b => exact absurd hok (by simp [raisedTC, hcid, hpg, hname, htool, harg])
            | jnum q => exact absurd hok (by simp [raisedTC, hcid, hpg, hname, htool, harg])
            | jarr xs => exact absurd hok (by simp [raisedTC, hcid, hpg, hname, htool, harg])
            | jobj fs => exact absurd hok (by simp [raisedTC, hcid, hpg, hname, htool, harg])

/-- Claim C8: every completed tool invocation sends exactly one
`function_call_output` upstream — carrying the result text for a
`TO_SERVER` result and an empty output for a `TO_CLIENT` result — and
exactly one side-channel `extension.middle_tier_tool_response` message
(with the tool name, result payload and preceding item id) directly to
the client when the direction is `TO_CLIENT`, none when it is
`TO_SERVER` (rtmt.py lines 126-150). -/
theorem tool_result_routing (loads : String → Except PyError JValue)
    (rt : RTMiddleTier) (p : PendingMap) (mf : List (String × JValue))
    (out : Option OutFrame)
    (ht : typeIs mf "response.output_item.done" = true)
    (hi : itemTypeIs mf "function_call" = true)
    (hok : (_process_message_to_client loads rt p (.parsed (.jobj mf))).outcome = .ok out) :
    ∃ (cid nameV prev : JValue) (tool : Tool) (argv : JValue) (r : ToolResult),
      toolsLookup rt.tools nameV = .ok tool ∧
      tool.target argv = .ok r ∧
      (_process_message_to_client loads rt p (.parsed (.jobj mf))).serverSends
        = [functionCallOutputMsg cid r] ∧
      (r.destination = .TO_CLIENT →
        (_process_message_to_client loads rt p (.parsed (.jobj mf))).clientSends
          = [middleTierToolResponseMsg prev nameV r]) ∧
      (r.destination = .TO_SERVER →
        (_process_message_to_client loads rt p (.parsed (.jobj mf))).clientSends = []) := by
  rw [ppc_dispatch loads rt p mf ht, toClientCases_output_item_done] at hok ⊢
  exact caseOutputItemDone_routing loads rt p mf out hi hok

/-- Witness for `tool_result_routing` at the concrete completion frame of
call `c1` for the registered `search` tool. -/
theorem tool_result_routing_witness :
    typeIs [("type", .jstr "response.output_item.done"),
            ("item", .jobj [("type", .jstr "function_call"), ("call_id", .jstr "c1"),
                            ("name", .jstr "search"),
                            ("arguments", .jstr "\x7b\"query\": \"refill\"\x7d")])]
        "response.output_item.done" = true ∧
    itemTypeIs [("type", .jstr "response.output_item.done"),
            ("item", .jobj [("type", .jstr "function_call"), ("call_id", .jstr "c1"),
                            ("name", .jstr "search"),
                            ("arguments", .jstr "\x7b\"query\": \"refill\"\x7d")])]
        "function_call" = true ∧
    (∃ (cid nameV prev : JValue) (tool : Tool) (argv : JValue) (r : ToolResult),
      toolsLookup rtEx.tools nameV = .ok tool ∧
      tool.target argv = .ok r ∧
      (_process_message_to_client loadsEx rtEx pendingC1
          (.parsed (.jobj [("type", .jstr "response.output_item.done"),
            ("item", .jobj [("type", .jstr "function_call"), ("call_id", .jstr "c1"),
                            ("name", .jstr "search"),
                            ("arguments", .jstr "\x7b\"query\": \"refill\"\x7d")])]))).serverSends
        = [functionCallOutputMsg cid r] ∧
      (r.destination = .TO_CLIENT →
        (_process_message_to_client loadsEx rtEx pendingC1
            (.parsed (.jobj [("type", .jstr "response.output_item.done"),
              ("item", .jobj [("type", .jstr "function_call"), ("call_id", .jstr "c1"),
                              ("name", .jstr "search"),
                              ("arguments", .jstr "\x7b\"query\": \"refill\"\x7d")])]))).clientSends
          = [middleTierToolResponseMsg prev nameV r]) ∧
      (r.destination = .TO_SERVER →
        (_process_message_to_client loadsEx rtEx pendingC1
            (.parsed (.jobj [("type", .jstr "response.output_item.done"),
              ("item", .jobj [("type", .jstr "function_call"), ("call_id", .jstr "c1"),
                              ("name", .jstr "search"),
                              ("arguments", .jstr "\x7b\"query\": \"refill\"\x7d")])]))).clientSends = [])) := by
  refine ⟨by decide, by decide, ?_⟩
  exact tool_result_routing loadsEx rtEx pendingC1 _ none (by decide) (by decide) rfl

/-- Witness for `session_update_injects_registry_tools` at the empty
session body and the concrete policy `rtEx` with one registered tool, as
in the spec's configuration scenario. -/
theorem session_update_injects_registry_tools_witness :
    typeIs [("type", .jstr "session.update"), ("session", .jobj [])] "session.update" = true ∧
    rtEx.tools ≠ [] ∧
    (∃ m, (some (.reserialized (.jobj
        [("type", .jstr "session.update"),
         ("session", .jobj
           [("instructions", .jstr "Answer in English"),
            ("temperature", .jnum (4 / 5)),
            ("top_p", .jnum (9 / 10)),
            ("presence_penalty", .jnum (2 / 5)),
            ("frequency_penalty", .jnum (1 / 5)),
            ("voice", .jstr "sage"),
            ("input_audio_transcription",
             .jobj [("model", .jstr "whisper-1"), ("language", .jstr "en")]),
            ("output_audio_format", .jstr "pcm16"),
            ("modalities", .jarr [.jstr "text", .jstr "audio"]),
            ("turn_detection",
             .jobj [("type", .jstr "server_vad"), ("threshold", .jnum (1 / 2)),
                    ("prefix_padding_ms", .jnum 300), ("silence_duration_ms", .jnum 800)]),
            ("tool_choice", .jstr "auto"),
            ("tools", .jarr [.jobj [("type", .jstr "function")]])])])) : Option OutFrame)
        = some (.reserialized (.jobj m)) ∧
      ∃ sf, lookupField m "session" = some (.jobj sf) ∧
        lookupField sf "tools" = some (.jarr (rtEx.tools.map (fun kt => kt.2.schema))) ∧
        lookupField sf "tool_choice" = some (.jstr "auto")) := by
  refine ⟨by decide, by simp [rtEx], ?_⟩
  obtain ⟨m, hm, sf, hsf, htools, hauto, hnone⟩ :=
    session_update_injects_registry_tools rtEx
      [("type", .jstr "session.update"), ("session", .jobj [])] _ (by decide) rfl
  exact ⟨m, hm, sf, hsf, htools, hauto (by simp [rtEx])⟩

/-- Witness for `session_created_strips_sensitive_fields` at a concrete
upstream frame carrying secret instructions and a non-policy voice. -/
theorem session_created_strips_sensitive_fields_witness :
    typeIs [("type", .jstr "session.created"),
            ("session", .jobj [("instructions", .jstr "secret"), ("voice", .jstr "echo")])]
        "session.created" = true ∧
    (∃ m, (some (.reserialized (.jobj
        [("type", .jstr "session.created"),
         ("session", .jobj
           [("instructions", .jstr ""),
            ("voice", .jstr "sage"),
            ("tools", .jarr []),
            ("tool_choice", .jstr "none"),
            ("max_response_output_tokens", .jnull)])])) : Option OutFrame)
        = some (.reserialized (.jobj m)) ∧
      ∃ sf, lookupField m "session" = some (.jobj sf) ∧
        lookupField sf "instructions" = some (.jstr "") ∧
        lookupField sf "tools" = some (.jarr []) ∧
        lookupField sf "voice" = some (optToJ rtEx.voice_choice) ∧
        lookupField sf "tool_choice" = some (.jstr "none") ∧
        lookupField sf "max_response_output_tokens" = some .jnull) := by
  refine ⟨by decide, ?_⟩
  exact session_created_strips_sensitive_fields loadsEx rtEx []
    [("type", .jstr "session.created"),
     ("session", .jobj [("instructions", .jstr "secret"), ("voice", .jstr "echo")])]
    _ (by decide) rfl

/-- Claim C10: `ToolResult.to_text` always yields a string — empty for a
`None` payload, the payload itself for a string payload, and the
`json.dumps` serialization otherwise — and both the `output` field of the
upstream `function_call_output` message and the `tool_result` field of
the client side-channel message are built from it as JSON strings
(rtmt.py lines 29-32, 133-149; `report_grounding` in ragtools.py returns
a dict payload). -/
theorem tool_result_to_text_stringifies (r : ToolResult) :
    (r.text = .jnull → r.to_text = "") ∧
    (∀ s, r.text = .jstr s → r.to_text = s) ∧
    (r.text ≠ .jnull → (∀ s, r.text ≠ .jstr s) → r.to_text = jsonDumps r.text) ∧
    (∀ cid, ∃ s, functionCallOutputMsg cid r
        = .jobj [("type", .jstr "conversation.item.create"),
                 ("item", .jobj [("type", .jstr "function_call_output"),
                                 ("call_id", cid), ("output", .jstr s)])]) ∧
    (∀ prev nameV, ∃ s, middleTierToolResponseMsg prev nameV r
        = .jobj [("type", .jstr "extension.middle_tier_tool_response"),
                 ("previous_item_id", prev), ("tool_name", nameV),
                 ("tool_result", .jstr s)]) := by
  refine ⟨?_, ?_, ?_, ?_, ?_⟩
  · intro h
    simp [ToolResult.to_text, h]
  · intro s h
    simp [ToolResult.to_text, h]
  · intro h1 h2
    unfold ToolResult.to_text
    cases ht : r.text with
    | jnull => exact absurd ht h1
    | jstr s => exact absurd ht (h2 s)
    | jbool b => rfl
    | jnum q => rfl
    | jarr xs => rfl
    | jobj fs => rfl
  · intro cid
    exact ⟨if r.destination = .TO_SERVER then r.to_text else "", rfl⟩
  · intro prev nameV
    exact ⟨r.to_text, rfl⟩

/-- Witness for `tool_result_to_text_stringifies` at the structured
(dict) payload shape returned by the grounding tool. -/
theorem tool_result_to_text_stringifies_witness :
    (ToolResult.mk (.jobj [("sources", .jarr [])]) .TO_CLIENT).text ≠ .jnull ∧
    (∀ s, (ToolResult.mk (.jobj [("sources", .jarr [])]) .TO_CLIENT).text ≠ .jstr s) ∧
    (ToolResult.mk (.jobj [("sources", .jarr [])]) .TO_CLIENT).to_text
      = jsonDumps (.jobj [("sources", .jarr [])]) := by
  refine ⟨?_, ?_, ?_⟩
  · intro h
    exact nomatch h
  · intro s h
    exact nomatch h
  · exact (tool_result_to_text_stringifies
      (ToolResult.mk (.jobj [("sources", .jarr [])]) .TO_CLIENT)).2.2.1
      (fun h => nomatch h) (fun s h => nomatch h)
